import Mathlib

/-!
# Verification of the FlyPrivate flight-data processor

Shallow embedding of `flight_processor.py` (and the pipeline tail used by
`run_processor.py`).  Python strings are modelled as Lean `String`/`List Char`,
Python floats as `ℚ` (exact arithmetic) except for the haversine duration
computation, which is modelled over `ℝ` with real trigonometric functions.
Python dictionaries are modelled as insertion-ordered association lists
(matching CPython's guaranteed iteration order).
-/

set_option maxRecDepth 10000
set_option maxHeartbeats 1000000
set_option linter.unusedVariables false

namespace Flights

/-! ## Python string primitives -/

/-- Python `needle in haystack` substring test. -/
def substrOf (needle hay : List Char) : Bool :=
  hay.tails.any (fun t => needle.isPrefixOf t)

def substrS (needle hay : String) : Bool := substrOf needle.data hay.data

def isSpaceChar (c : Char) : Bool := c.isWhitespace

/-- Python `str.strip()` with no argument (whitespace at both ends). -/
def pyStrip (l : List Char) : List Char :=
  ((l.dropWhile isSpaceChar).reverse.dropWhile isSpaceChar).reverse

def strip (s : String) : String := String.mk (pyStrip s.data)

/-- Python `str.lower()` (the names handled here are ASCII after cleaning). -/
def lowerChars (l : List Char) : List Char := l.map Char.toLower

def pyLower (s : String) : String := String.mk (lowerChars s.data)

/-- Python `str.replace(pat, rep)`: replace all non-overlapping occurrences,
scanning left to right (`pat` is non-empty at every call site).  The fuel
argument only bounds the recursion (each step consumes at least one
character, so `length + 1` always suffices) and keeps the definition
structurally recursive, hence kernel-reducible. -/
def listReplaceF (p r : List Char) : ℕ → List Char → List Char
  | 0, l => l
  | _ + 1, [] => []
  | fuel + 1, a :: l =>
    if p ≠ [] ∧ p.isPrefixOf (a :: l) then
      r ++ listReplaceF p r fuel ((a :: l).drop p.length)
    else
      a :: listReplaceF p r fuel l

def listReplace (p r l : List Char) : List Char :=
  listReplaceF p r (l.length + 1) l

def replaceStr (s pat rep : String) : String :=
  String.mk (listReplace pat.data rep.data s.data)

/-- Python `str.split(sep)` with non-empty separator: keeps empty fields
(fuel-bounded as above). -/
def splitSepGo (s0 : Char) (sr : List Char) : ℕ → List Char → List (List Char)
  | 0, l => [l]
  | _ + 1, [] => [[]]
  | fuel + 1, a :: l =>
    if (s0 :: sr).isPrefixOf (a :: l) then
      [] :: splitSepGo s0 sr fuel ((a :: l).drop (sr.length + 1))
    else
      match splitSepGo s0 sr fuel l with
      | [] => [[a]]
      | f :: fs => (a :: f) :: fs

def pySplit (s sep : String) : List String :=
  match sep.data with
  | [] => [s]
  | c :: cs => (splitSepGo c cs (s.data.length + 1) s.data).map String.mk

/-- Python `str.split()` with no argument: split on whitespace runs,
dropping empty fields. -/
def pyWords (l : List Char) : List (List Char) :=
  (l.splitOnP isSpaceChar).filter (fun w => w ≠ [])

def pyWordsS (s : String) : List String := (pyWords s.data).map String.mk

/-- Value of a list of decimal digit characters. -/
def natOfDigits (l : List Char) : ℕ :=
  l.foldl (fun a c => 10 * a + (c.toNat - 48)) 0

/-! ## `bytes(name, "utf-8").decode("unicode-escape")`

The source round-trips every city name through a UTF-8 encode followed by a
`unicode-escape` decode (flight_processor.py line 59).  The decode reads the
byte string byte-by-byte: a backslash starts an escape sequence, every other
byte becomes the Latin-1 character with that code.  This is what turns
`"Zürich"` into the mojibake `"ZÃ¼rich"` that the correction table below then
repairs.  Escapes that CPython would reject are kept literally here. -/

/-- UTF-8 encoding of one character. -/
def utf8EncodeChar (c : Char) : List ℕ :=
  let n := c.toNat
  if n < 128 then [n]
  else if n < 2048 then [192 + n / 64, 128 + n % 64]
  else if n < 65536 then [224 + n / 4096, 128 + n / 64 % 64, 128 + n % 64]
  else [240 + n / 262144, 128 + n / 4096 % 64, 128 + n / 64 % 64, 128 + n % 64]

def utf8Bytes (s : String) : List ℕ :=
  s.data.foldr (fun c acc => utf8EncodeChar c ++ acc) []

/-- A raw byte viewed as a Latin-1 character. -/
def byteChar (b : ℕ) : Char := Char.ofNat b

def hexValB (b : ℕ) : Option ℕ :=
  if 48 ≤ b ∧ b ≤ 57 then some (b - 48)
  else if 97 ≤ b ∧ b ≤ 102 then some (b - 87)
  else if 65 ≤ b ∧ b ≤ 70 then some (b - 55)
  else none

def octValB (b : ℕ) : Option ℕ :=
  if 48 ≤ b ∧ b ≤ 55 then some (b - 48) else none

/-- Decode one escape sequence (the bytes after a backslash): characters to
emit and number of bytes consumed. -/
def unicodeEscape : List ℕ → (List Char × ℕ)
  | [] => ([byteChar 92], 0)
  | b :: bs =>
    if b = 110 then (['\n'], 1)
    else if b = 116 then (['\t'], 1)
    else if b = 114 then (['\r'], 1)
    else if b = 92 then ([byteChar 92], 1)
    else if b = 39 then ([byteChar 39], 1)
    else if b = 34 then ([byteChar 34], 1)
    else if b = 97 then ([byteChar 7], 1)
    else if b = 98 then ([byteChar 8], 1)
    else if b = 102 then ([byteChar 12], 1)
    else if b = 118 then ([byteChar 11], 1)
    else if b = 10 then ([], 1)
    else if b = 120 then
      match bs with
      | h1 :: h2 :: _ =>
        match hexValB h1, hexValB h2 with
        | some v1, some v2 => ([byteChar (16 * v1 + v2)], 3)
        | _, _ => ([byteChar 92, byteChar b], 1)
      | _ => ([byteChar 92, byteChar b], 1)
    else if b = 117 then
      match bs with
      | h1 :: h2 :: h3 :: h4 :: _ =>
        match hexValB h1, hexValB h2, hexValB h3, hexValB h4 with
        | some v1, some v2, some v3, some v4 =>
          ([byteChar (4096 * v1 + 256 * v2 + 16 * v3 + v4)], 5)
        | _, _, _, _ => ([byteChar 92, byteChar b], 1)
      | _ => ([byteChar 92, byteChar b], 1)
    else
      match octValB b with
      | some v1 =>
        match bs with
        | b2 :: b3 :: _ =>
          match octValB b2, octValB b3 with
          | some v2, some v3 => ([byteChar (64 * v1 + 8 * v2 + v3)], 3)
          | some v2, none => ([byteChar (8 * v1 + v2)], 2)
          | _, _ => ([byteChar v1], 1)
        | [b2] =>
          match octValB b2 with
          | some v2 => ([byteChar (8 * v1 + v2)], 2)
          | none => ([byteChar v1], 1)
        | [] => ([byteChar v1], 1)
      | none => ([byteChar 92, byteChar b], 1)

def decodeUEBytes : ℕ → List ℕ → List Char
  | 0, _ => []
  | _ + 1, [] => []
  | fuel + 1, b :: bs =>
    if b = 92 then
      let p := unicodeEscape bs
      p.1 ++ decodeUEBytes fuel (bs.drop p.2)
    else
      byteChar b :: decodeUEBytes fuel bs

def decode_unicode_escape (s : String) : String :=
  String.mk (decodeUEBytes ((utf8Bytes s).length + 1) (utf8Bytes s))

/-! ## `clean_city_name` / `normalize_string` (flight_processor.py lines 18-84) -/

/-- The `common_replacements` table of `clean_city_name`, in source order. -/
def common_replacements : List (String × String) :=
  [("Zürich", "Zurich"), ("ZÃ¼rich", "Zurich"),
   ("Chambéry", "Chambery"), ("ChambÃ©ry", "Chambery"),
   ("Málaga", "Malaga"), ("MÃ¡laga", "Malaga"),
   ("Düsseldorf", "Dusseldorf"), ("DÃ¼sseldorf", "Dusseldorf"),
   ("Liège", "Liege"), ("LiÃ¨ge", "Liege"),
   ("Genève", "Geneva"), ("GenÃ¨ve", "Geneva"),
   ("Václav", "Vaclav"), ("VÃ¡clav", "Vaclav"),
   ("Nice-Côte", "Nice"), ("Nice-CÃ´te", "Nice"),
   ("Orléans", "Orleans"), ("OrlÃ©ans", "Orleans"),
   ("Hyères", "Hyeres"), ("HyÃ¨res", "Hyeres"),
   ("Mérignac", "Bordeaux"), ("MÃ©rignac", "Bordeaux"),
   ("Paris-Le Bourget", "Paris"), ("Rotterdam The Hague", "Rotterdam"),
   ("Côte", "Cote"), ("CÃ´te", "Cote"),
   ("Wevelgem", "Bruxelles")]

/-- Base letters for precomposed accented characters: models
`unicodedata.normalize("NFD", ·)` followed by dropping combining marks
(category `Mn`), over the Latin letters this data set contains.  Characters
with no canonical decomposition are left unchanged by NFD and hence absent
from this table. -/
def accentBase : List (Char × Char) :=
  [('à', 'a'), ('á', 'a'), ('â', 'a'), ('ã', 'a'), ('ä', 'a'), ('å', 'a'),
   ('ā', 'a'), ('ă', 'a'), ('ą', 'a'),
   ('è', 'e'), ('é', 'e'), ('ê', 'e'), ('ë', 'e'), ('ē', 'e'), ('ĕ', 'e'),
   ('ė', 'e'), ('ę', 'e'), ('ě', 'e'),
   ('ì', 'i'), ('í', 'i'), ('î', 'i'), ('ï', 'i'), ('ĩ', 'i'), ('ī', 'i'),
   ('ĭ', 'i'), ('į', 'i'),
   ('ò', 'o'), ('ó', 'o'), ('ô', 'o'), ('õ', 'o'), ('ö', 'o'), ('ō', 'o'),
   ('ŏ', 'o'), ('ő', 'o'),
   ('ù', 'u'), ('ú', 'u'), ('û', 'u'), ('ü', 'u'), ('ũ', 'u'), ('ū', 'u'),
   ('ŭ', 'u'), ('ů', 'u'), ('ű', 'u'), ('ų', 'u'),
   ('ý', 'y'), ('ÿ', 'y'), ('ŷ', 'y'),
   ('ñ', 'n'), ('ń', 'n'), ('ņ', 'n'), ('ň', 'n'),
   ('ç', 'c'), ('ć', 'c'), ('ĉ', 'c'), ('ċ', 'c'), ('č', 'c'),
   ('ś', 's'), ('ŝ', 's'), ('ş', 's'), ('š', 's'),
   ('ź', 'z'), ('ż', 'z'), ('ž', 'z'),
   ('ŕ', 'r'), ('ř', 'r'), ('ĺ', 'l'), ('ľ', 'l'), ('ť', 't'), ('ţ', 't'),
   ('ď', 'd'), ('ğ', 'g'), ('ĝ', 'g'), ('ġ', 'g'), ('ģ', 'g'),
   ('À', 'A'), ('Á', 'A'), ('Â', 'A'), ('Ã', 'A'), ('Ä', 'A'), ('Å', 'A'),
   ('È', 'E'), ('É', 'E'), ('Ê', 'E'), ('Ë', 'E'),
   ('Ì', 'I'), ('Í', 'I'), ('Î', 'I'), ('Ï', 'I'),
   ('Ò', 'O'), ('Ó', 'O'), ('Ô', 'O'), ('Õ', 'O'), ('Ö', 'O'),
   ('Ù', 'U'), ('Ú', 'U'), ('Û', 'U'), ('Ü', 'U'), ('Ý', 'Y'),
   ('Ñ', 'N'), ('Ç', 'C'), ('Č', 'C'), ('Š', 'S'), ('Ž', 'Z'), ('Ř', 'R'),
   ('Ě', 'E'), ('Ů', 'U')]

/-- One character of the NFD-then-drop-marks step: standalone combining marks
are dropped, precomposed accented letters decompose to their base letter. -/
def stripAccentChar (c : Char) : Option Char :=
  if 768 ≤ c.toNat ∧ c.toNat ≤ 879 then none
  else
    match accentBase.lookup c with
    | some b => some b
    | none => some c

/-- `re.sub(r"\([^)]+\)", "", name)`: drop parenthesized groups with at least
one non-`)` character inside (an empty `()` does not match; fuel-bounded as
above). -/
def removeParens1F : ℕ → List Char → List Char
  | 0, l => l
  | _ + 1, [] => []
  | fuel + 1, a :: l =>
    if a = '(' then
      match l.dropWhile (fun c => c ≠ ')') with
      | ')' :: r2 =>
        if l.takeWhile (fun c => c ≠ ')') = [] then a :: removeParens1F fuel l
        else removeParens1F fuel r2
      | _ => a :: removeParens1F fuel l
    else a :: removeParens1F fuel l

def removeParens1 (l : List Char) : List Char := removeParens1F (l.length + 1) l

/-- `clean_city_name` (flight_processor.py lines 18-72).  The local
`special_chars` table in the source is defined but never applied, so it has no
behavioral counterpart here.  The final `name.strip()` is the function's
return expression. -/
def clean_city_name (name : String) : String :=
  let n1 := decode_unicode_escape name
  let n2 := common_replacements.foldl (fun s pr => replaceStr s pr.1 pr.2) n1
  let n3 := strip (String.mk (removeParens1 n2.data))
  let n4 := String.mk (n3.data.filterMap stripAccentChar)
  strip n4

/-- `normalize_string` (flight_processor.py lines 74-84). -/
def normalize_string (s : String) : String :=
  let s1 := strip (pyLower (clean_city_name s))
  String.intercalate " " (pyWordsS s1)

/-! ## `format_date` (flight_processor.py lines 86-107)

`datetime.strptime` is modelled format-by-format, following CPython's
`_strptime`: each directive is a regular expression fragment (`%Y` exactly four
digits, `%m`/`%d` one or two digits within range, `%B`/`%b` a month name
matched case-insensitively, a literal space one-or-more whitespace), the whole
input must be consumed, the default year is 1900, and the resulting calendar
date is validated (so "30/02" or "29/02" with the non-leap default year raise
`ValueError`).  `datetime.replace(year=·)` revalidates the day against the new
year. -/

def monthNames : List String :=
  ["January", "February", "March", "April", "May", "June", "July", "August",
   "September", "October", "November", "December"]

def monthAbbr3 : List String :=
  ["Jan", "Feb", "Mar", "Apr", "May", "Jun", "Jul", "Aug", "Sep", "Oct",
   "Nov", "Dec"]

def isLeapYear (y : ℕ) : Bool := y % 4 = 0 && (y % 100 ≠ 0 || y % 400 = 0)

def days_in_month (y m : ℕ) : ℕ :=
  if m = 2 then (if isLeapYear y then 29 else 28)
  else if m = 4 ∨ m = 6 ∨ m = 9 ∨ m = 11 then 30
  else 31

/-- A one-or-two-digit numeric `strptime` field (`%m`: 1..12, `%d`: 1..31),
consuming the whole fragment. -/
def numField (lo hi : ℕ) (l : List Char) : Option ℕ :=
  if l ≠ [] ∧ l.length ≤ 2 ∧ l.all Char.isDigit then
    let v := natOfDigits l
    if lo ≤ v ∧ v ≤ hi then some v else none
  else none

/-- The `%Y` field: exactly four digits; year 0 is rejected by `datetime`
(`MINYEAR = 1`). -/
def yearField (l : List Char) : Option ℕ :=
  if l.length = 4 ∧ l.all Char.isDigit then
    let v := natOfDigits l
    if 1 ≤ v then some v else none
  else none

/-- `%Y-%m-%d`. -/
def parse_Ymd (s : String) : Option (ℕ × ℕ × ℕ) :=
  match pySplit s "-" with
  | [ys, ms, ds] =>
    match yearField ys.data, numField 1 12 ms.data, numField 1 31 ds.data with
    | some y, some m, some d =>
      if d ≤ days_in_month y m then some (y, m, d) else none
    | _, _, _ => none
  | _ => none

/-- Match one of `names` (1-indexed) case-insensitively as a prefix of `l`;
month names are pairwise non-prefixes, so at most one can match. -/
def matchNameFrom : List String → ℕ → List Char → Option (ℕ × List Char)
  | [], _, _ => none
  | n :: ns, i, l =>
    if (lowerChars n.data).isPrefixOf (lowerChars l) then
      some (i, l.drop n.data.length)
    else matchNameFrom ns (i + 1) l

/-- `%b` as the final directive: the remaining input must equal an
abbreviated month name, case-insensitively. -/
def matchAbbrFull (l : List Char) : Option ℕ :=
  match matchNameFrom monthAbbr3 1 l with
  | some (i, []) => some i
  | _ => none

/-- `%B %d` (default year 1900). -/
def parse_Bd (s : String) : Option (ℕ × ℕ × ℕ) :=
  match matchNameFrom monthNames 1 s.data with
  | none => none
  | some (m, rest) =>
    if rest.takeWhile isSpaceChar = [] then none
    else
      match numField 1 31 (rest.dropWhile isSpaceChar) with
      | none => none
      | some d => if d ≤ days_in_month 1900 m then some (1900, m, d) else none

/-- Whitespace then `%b` then end of input, after the day of `%d %b`. -/
def afterDay (d : ℕ) (rest : List Char) : Option (ℕ × ℕ × ℕ) :=
  if rest.takeWhile isSpaceChar = [] then none
  else
    match matchAbbrFull (rest.dropWhile isSpaceChar) with
    | none => none
    | some m => if d ≤ days_in_month 1900 m then some (1900, m, d) else none

/-- `%d %b` (default year 1900): the day pattern prefers two digits and
backtracks to one, as the compiled regular expression does. -/
def parse_dB (s : String) : Option (ℕ × ℕ × ℕ) :=
  let two :=
    match s.data with
    | c1 :: c2 :: rest =>
      match numField 1 31 [c1, c2] with
      | some d => afterDay d rest
      | none => none
    | _ => none
  match two with
  | some r => some r
  | none =>
    match s.data with
    | c1 :: rest =>
      match numField 1 9 [c1] with
      | some d => afterDay d rest
      | none => none
    | _ => none

/-- `%d/%m/%Y`. -/
def parse_dmY (s : String) : Option (ℕ × ℕ × ℕ) :=
  match pySplit s "/" with
  | [ds, ms, ys] =>
    match numField 1 31 ds.data, numField 1 12 ms.data, yearField ys.data with
    | some d, some m, some y =>
      if d ≤ days_in_month y m then some (y, m, d) else none
    | _, _, _ => none
  | _ => none

/-- `%d/%m` (default year 1900). -/
def parse_dm (s : String) : Option (ℕ × ℕ × ℕ) :=
  match pySplit s "/" with
  | [ds, ms] =>
    match numField 1 31 ds.data, numField 1 12 ms.data with
    | some d, some m =>
      if d ≤ days_in_month 1900 m then some (1900, m, d) else none
    | _, _ => none
  | _ => none

/-- `strftime("%d")` zero-pads the day to two digits. -/
def pad2 (n : ℕ) : String := if n < 10 then "0" ++ toString n else toString n

def month_name (m : ℕ) : String := monthNames.getD (m - 1) ""

/-- One loop iteration of `format_date` after a successful `strptime`:
replace the year by 2024 for December and 2025 otherwise (`datetime.replace`
revalidates the day, so February 29 raises and the loop continues), then
`strftime("%B %d")`. -/
def format_step (ymd : ℕ × ℕ × ℕ) : Option String :=
  if ymd.2.2 ≤ days_in_month (if ymd.2.1 = 12 then 2024 else 2025) ymd.2.1 then
    some (month_name ymd.2.1 ++ " " ++ pad2 ymd.2.2)
  else none

/-- Month/day bounds common to every accepted `strptime` parse (used to
state the output-shape invariant). -/
def md_ok (m d : ℕ) : Prop := 1 ≤ m ∧ m ≤ 12 ∧ 1 ≤ d ∧ d ≤ 31

def dateFormats : List (String → Option (ℕ × ℕ × ℕ)) :=
  [parse_Ymd, parse_Bd, parse_dB, parse_dmY, parse_dm]

def firstSome : List (Option String) → Option String
  | [] => none
  | some s :: _ => some s
  | none :: rest => firstSome rest

/-- `format_date` (flight_processor.py lines 86-107): the five formats are
tried in order, the first whose parse and year-replacement both succeed wins,
and every failure path falls back to `"December 25"`. -/
def format_date (date_str : String) : String :=
  let s := strip date_str
  match firstSome (dateFormats.map (fun p => (p s).bind format_step)) with
  | some out => out
  | none => "December 25"

/-! ## `load_airports_data` (flight_processor.py lines 109-154)

Python dicts are insertion-ordered association lists; `d[k] = v` keeps an
existing key's position and appends a fresh key. -/

/-- Dictionary lookup (`k in d` / `d[k]`). -/
def alookup {β : Type} (k : String) : List (String × β) → Option β
  | [] => none
  | (k2, v) :: rest => if k = k2 then some v else alookup k rest

/-- Dictionary assignment `d[k] = v`. -/
def dictInsert {β : Type} (k : String) (v : β) : List (String × β) → List (String × β)
  | [] => [(k, v)]
  | (k2, v2) :: rest =>
    if k = k2 then (k, v) :: rest else (k2, v2) :: dictInsert k v rest

/-- One row of the reference CSV; `none` models a `pd.isna` field. -/
structure AirportRow where
  region_name : Option String
  iata : Option String
  icao : Option String
  latitude : Option ℚ
  longitude : Option ℚ
deriving DecidableEq, Repr

/-- The per-airport record stored in the lookup indices (lines 138-145). -/
structure AirportData where
  iata : Option String
  icao : Option String
  latitude : ℚ
  longitude : ℚ
  city : String
  normalized_city : String
deriving DecidableEq, Repr

structure AirportsDict where
  by_city : List (String × AirportData)
  by_normalized_city : List (String × AirportData)
  by_iata : List (String × AirportData)
  by_icao : List (String × AirportData)
  cities_to_coords : List (String × (ℚ × ℚ))
deriving DecidableEq, Repr

def emptyAirportsDict : AirportsDict := ⟨[], [], [], [], []⟩

/-- The row guard of line 128: a present, non-empty (after `strip`) city and
present latitude and longitude. -/
def row_valid (row : AirportRow) : Bool :=
  match row.region_name, row.latitude, row.longitude with
  | some c, some _, some _ => strip c ≠ ""
  | _, _, _ => false

/-- `city = clean_city_name(row["region_name"].strip())` (lines 124, 129). -/
def row_city (row : AirportRow) : String :=
  clean_city_name (strip (row.region_name.getD ""))

/-- `normalized_city = normalize_string(city)` (line 130). -/
def row_norm_city (row : AirportRow) : String := normalize_string (row_city row)

/-- The `airport_data` record built at lines 138-145 (for a valid row the
`getD 0` defaults are never used). -/
def row_data (row : AirportRow) : AirportData :=
  ⟨row.iata.map strip, row.icao.map strip, row.latitude.getD 0,
   row.longitude.getD 0, row_city row, row_norm_city row⟩

/-- One iteration of the row loop (lines 123-152).  `cities_to_coords` is
assigned unconditionally — so a repeated normalized city overwrites it —
while the other four indices are only assigned when the normalized city is
seen for the first time. -/
def load_row (d : AirportsDict) (row : AirportRow) : AirportsDict :=
  if row_valid row then
    let nc := row_norm_city row
    let data := row_data row
    let d1 := { d with
      cities_to_coords :=
        dictInsert nc (data.latitude, data.longitude) d.cities_to_coords }
    if (alookup nc d.by_normalized_city).isSome then d1
    else
      { d1 with
        by_normalized_city := dictInsert nc data d1.by_normalized_city
        by_city :=
          if data.city ≠ "" then dictInsert data.city data d1.by_city
          else d1.by_city
        by_iata :=
          match data.iata with
          | some i => if i ≠ "" then dictInsert i data d1.by_iata else d1.by_iata
          | none => d1.by_iata
        by_icao :=
          match data.icao with
          | some i => if i ≠ "" then dictInsert i data d1.by_icao else d1.by_icao
          | none => d1.by_icao }
  else d

def load_airports_data (rows : List AirportRow) : AirportsDict :=
  rows.foldl load_row emptyAirportsDict

/-- Specification-side reading of §3 of the spec ("at most one entry is
retained per normalized city (first-seen wins)"): the record of the first
valid row whose normalized city is `nc`. -/
def first_seen_data (nc : String) : List AirportRow → Option AirportData
  | [] => none
  | r :: rs =>
    if row_valid r ∧ row_norm_city r = nc then some (row_data r)
    else first_seen_data nc rs

/-- Specification-side counterpart for the overwritten index: the coordinate
pair of the *last* valid row whose normalized city is `nc`. -/
def last_seen_coords (nc : String) : List AirportRow → Option (ℚ × ℚ)
  | [] => none
  | r :: rs =>
    match last_seen_coords nc rs with
    | some c => some c
    | none =>
      if row_valid r ∧ row_norm_city r = nc then
        some (r.latitude.getD 0, r.longitude.getD 0)
      else none

/-! ## `calculate_prices` (flight_processor.py lines 160-165) -/

/-- The fixed multiplier set of `random.choice`. -/
def multipliers : List ℚ :=
  [20/10, 21/10, 22/10, 23/10, 24/10, 25/10, 26/10, 27/10, 28/10, 29/10, 30/10]

/-- `calculate_prices`; the random choice is modelled by its index.  Returns
`(charter_price, flyprivate_price)`. -/
def calculate_prices (base_price : ℚ) (choice : Fin 11) : ℤ × ℤ :=
  let multiplier := multipliers.getD choice.val 2
  (⌈base_price * multiplier⌉, ⌈base_price * (12/10)⌉)

/-! ## `get_airport_coordinates` (flight_processor.py lines 167-260) -/

/-- The alternation `international|airport|airfield|aerodrome|terminal`,
tried in this order, case-insensitively (leftmost alternative wins). -/
def noiseWords : List (List Char) :=
  ["international".data, "airport".data, "airfield".data, "aerodrome".data,
   "terminal".data]

/-- Length of the noise word matching at the head of `l`, if any. -/
def matchNoiseWord (l : List Char) : Option ℕ :=
  noiseWords.findSome? fun w =>
    if w.isPrefixOf (lowerChars l) then some w.length else none

/-- `re.sub(r"international|airport|airfield|aerodrome|terminal|\(.*?\)", "",
location, flags=re.IGNORECASE)`: leftmost match wins; the lazy paren
alternative removes from a `(` through the first `)`. -/
def removeNoiseF : ℕ → List Char → List Char
  | 0, l => l
  | _ + 1, [] => []
  | fuel + 1, a :: l =>
    match matchNoiseWord (a :: l) with
    | some n =>
      -- the matched word is non-empty, so this is `(a :: l).drop n`
      removeNoiseF fuel (l.drop (n - 1))
    | none =>
      if a = '(' then
        match l.dropWhile (fun c => c ≠ ')') with
        | ')' :: r2 => removeNoiseF fuel r2
        | _ => a :: removeNoiseF fuel l
      else a :: removeNoiseF fuel l

def removeNoise (l : List Char) : List Char := removeNoiseF (l.length + 1) l

/-- `re.sub(r"-.*$", "", location)`: drop everything from the first hyphen. -/
def takeUntilDash (l : List Char) : List Char := l.takeWhile (fun c => c ≠ '-')

/-- The `city_mappings` table (lines 182-212), in source order. -/
def city_mappings : List (String × String) :=
  [("amsterdam schiphol", "amsterdam"),
   ("paris le bourget", "paris"), ("paris orly", "paris"), ("paris cdg", "paris"),
   ("london heathrow", "london"), ("london gatwick", "london"),
   ("london luton", "london"), ("london stansted", "london"),
   ("london city", "london"),
   ("zurich kloten", "zurich"), ("geneva cointrin", "geneva"),
   ("chambery aix", "chambery"), ("nice cote", "nice"),
   ("frankfurt main", "frankfurt"), ("frankfurt hahn", "frankfurt"),
   ("toulon-hyeres", "toulon"), ("toulon hyeres", "toulon"),
   ("ciampino g b pastine", "rome"), ("ciampinoa g b pastine", "rome"),
   ("ciampino", "rome"), ("vaclav havel", "prague"),
   ("adolfo lopez mateos", "mexico city"), ("faa\x27a", "papeete"),
   ("abeid amani karume", "zanzibar"), ("edinburgh airport", "edinburgh"),
   ("innsbruck airport", "innsbruck"), ("speyer airport", "speyer"),
   ("billund airport", "billund"), ("keetmanshoop airport", "keetmanshoop")]

/-- The mapping loop (lines 216-218): each table entry whose key occurs in
the lower-cased *current* location replaces the whole location. -/
def apply_city_mappings (loc : String) : String :=
  city_mappings.foldl
    (fun cur pr => if substrS pr.1 (pyLower cur) then pr.2 else cur) loc

/-- The name-preparation prefix of `get_airport_coordinates`
(lines 176-218): clean, strip noise tokens and parenthesized groups, cut at
the first hyphen, strip, apply the alias table. -/
def resolver_clean (location : String) : String :=
  let l1 := clean_city_name location
  let l2 := String.mk (removeNoise l1.data)
  let l3 := String.mk (takeUntilDash l2.data)
  apply_city_mappings (strip l3)

/-- Tier 2 (lines 220-224): exact match against `cities_to_coords` keys. -/
def tier_exact (normalized : String) : List (String × (ℚ × ℚ)) → Option (ℚ × ℚ)
  | [] => none
  | (k, c) :: rest =>
    if normalized = pyLower k then some c else tier_exact normalized rest

/-- Tier 3 (lines 226-229): mutual substring match, first key in iteration
order wins. -/
def tier_substring (normalized : String) : List (String × (ℚ × ℚ)) → Option (ℚ × ℚ)
  | [] => none
  | (k, c) :: rest =>
    if substrS normalized (pyLower k) || substrS (pyLower k) normalized then some c
    else tier_substring normalized rest

/-- Tier 4 (lines 231-235): the first whitespace token of the normalized
name as a prefix of a key. -/
def tier_firstword (fw : String) : List (String × (ℚ × ℚ)) → Option (ℚ × ℚ)
  | [] => none
  | (k, c) :: rest =>
    if fw.data.isPrefixOf (pyLower k).data then some c
    else tier_firstword fw rest

/-- Tier 6 (lines 248-253): first three characters of the normalized name as
a prefix of a key. -/
def tier_prefix3 (p3 : String) : List (String × (ℚ × ℚ)) → Option (ℚ × ℚ)
  | [] => none
  | (k, c) :: rest =>
    if p3.data.isPrefixOf (pyLower k).data then some c
    else tier_prefix3 p3 rest

/-- `re.search(r"\(([A-Z]{3,4})\)", ·)`: the first parenthesized 3-4 letter
upper-case code (four letters preferred at each position, as in the greedy
`{3,4}`). -/
def findParenCode : List Char → Option String
  | [] => none
  | a :: l =>
    if a = '(' then
      match l with
      | c1 :: c2 :: c3 :: c4 :: c5 :: _ =>
        if c1.isUpper ∧ c2.isUpper ∧ c3.isUpper ∧ c4.isUpper ∧ c5 = ')' then
          some (String.mk [c1, c2, c3, c4])
        else if c1.isUpper ∧ c2.isUpper ∧ c3.isUpper ∧ c4 = ')' then
          some (String.mk [c1, c2, c3])
        else findParenCode l
      | [c1, c2, c3, c4] =>
        if c1.isUpper ∧ c2.isUpper ∧ c3.isUpper ∧ c4 = ')' then
          some (String.mk [c1, c2, c3])
        else findParenCode l
      | _ => findParenCode l
    else findParenCode l

/-- Tier 5 (lines 237-246): bracketed IATA/ICAO code of the *original*
location, looked up in `by_iata` then `by_icao`; falls through on a miss. -/
def tier_code (original : String) (d : AirportsDict) : Option (ℚ × ℚ) :=
  match findParenCode original.data with
  | none => none
  | some code =>
    match alookup code d.by_iata with
    | some a => some (a.latitude, a.longitude)
    | none =>
      match alookup code d.by_icao with
      | some a => some (a.latitude, a.longitude)
      | none => none

/-- The body of `get_airport_coordinates`'s `try` block.  `Except.error`
models the one uncaught statement that can raise inside it:
`normalized.split()[0]` (line 232) raises `IndexError` when the cleaned name
has no words, which aborts tiers 4-6. -/
def resolve_body (location : String) (d : AirportsDict) :
    Except Unit (Option (ℚ × ℚ)) :=
  if location = "" then .ok none
  else
    let normalized := pyLower (resolver_clean location)
    match tier_exact normalized d.cities_to_coords with
    | some c => .ok (some c)
    | none =>
      match tier_substring normalized d.cities_to_coords with
      | some c => .ok (some c)
      | none =>
        match pyWordsS normalized with
        | [] => .error ()
        | fw :: _ =>
          match tier_firstword fw d.cities_to_coords with
          | some c => .ok (some c)
          | none =>
            match tier_code location d with
            | some c => .ok (some c)
            | none =>
              if 3 ≤ normalized.data.length then
                match tier_prefix3 (String.mk (normalized.data.take 3))
                    d.cities_to_coords with
                | some c => .ok (some c)
                | none => .ok none
              else .ok none

/-- `get_airport_coordinates` (lines 167-260): the outer handler turns any
exception into the `(None, None)` result. -/
def get_airport_coordinates (location : String) (d : AirportsDict) :
    Option (ℚ × ℚ) :=
  match resolve_body location d with
  | .ok r => r
  | .error _ => none

/-! ## `estimate_duration` (flight_processor.py lines 262-283)

The only part of the program modelled over `ℝ`: the haversine computation
uses real `sin`/`cos`/`arcsin`/`sqrt` in place of floating point.  The
claims proved about it concern inputs where the distance is exactly zero or
where the guard short-circuits, so no rounding is involved. -/

/-- Python truthiness of a coordinate (`None` and `0.0` are falsy); this is
what `all([lat1, lon1, lat2, lon2])` tests. -/
def truthyR (x : Option ℝ) : Prop :=
  match x with
  | none => False
  | some v => v ≠ 0

/-- Python `int(·)`: truncation toward zero. -/
noncomputable def pyIntR (x : ℝ) : ℤ := if 0 ≤ x then ⌊x⌋ else -⌊-x⌋

/-- Lines 267-279: haversine distance (R = 6371 km), 500 km/h cruise speed,
plus 20 minutes, truncated to an integer number of minutes. -/
noncomputable def haversine_total_minutes (lat1 lon1 lat2 lon2 : ℝ) : ℤ :=
  let r1 := lat1 * (Real.pi / 180)
  let q1 := lon1 * (Real.pi / 180)
  let r2 := lat2 * (Real.pi / 180)
  let q2 := lon2 * (Real.pi / 180)
  let dlat := r2 - r1
  let dlon := q2 - q1
  let a := Real.sin (dlat / 2) ^ 2 +
    Real.cos r1 * Real.cos r2 * Real.sin (dlon / 2) ^ 2
  let c := 2 * Real.arcsin (Real.sqrt a)
  let distance := 6371 * c
  pyIntR (distance / 500 * 60 + 20)

/-- `{minutes:02d}` for the (always non-negative) minute remainder. -/
def pad2Z (n : ℤ) : String :=
  if 0 ≤ n ∧ n < 10 then "0" ++ toString n else toString n

/-- `f"{hours}h {minutes:02d}m"` with Python floor division and modulus. -/
def fmt_duration (tm : ℤ) : String :=
  toString (Int.fdiv tm 60) ++ "h " ++ pad2Z (Int.emod tm 60) ++ "m"

section
open Classical

/-- `estimate_duration` (lines 262-283).  When the guard passes, all four
options hold values, so `getD 0` only unwraps them. -/
noncomputable def estimate_duration (lat1 lon1 lat2 lon2 : Option ℝ) : String :=
  if truthyR lat1 ∧ truthyR lon1 ∧ truthyR lat2 ∧ truthyR lon2 then
    fmt_duration (haversine_total_minutes (lat1.getD 0) (lon1.getD 0)
      (lat2.getD 0) (lon2.getD 0))
  else "1h 30m"

end

/-! ## Source adapters: price and row parsing (lines 303-461)

Each branch of `process_source_data` is modelled as a draft parser; `none`
models an exception reaching the per-branch or per-row handler, which skips
the row. -/

/-- Python `float(·)` on a string, structural phase: optional surrounding
whitespace, optional sign, digits with at most one decimal point and at
least one digit in total.  Returns (negative?, integer digits, fraction
digits).  (Exponent, infinity and NaN spellings are not modelled.)  `none`
models a raised `ValueError`. -/
def pyFloatParse (s : String) : Option (Bool × List Char × List Char) :=
  let l := pyStrip s.data
  let neg : Bool := l.head? == some (Char.ofNat 45)
  let l1 := if l.head? = some (Char.ofNat 45) ∨ l.head? = some (Char.ofNat 43)
    then l.tail else l
  let ip := l1.takeWhile Char.isDigit
  let rest := l1.dropWhile Char.isDigit
  match rest with
  | [] => if ip = [] then none else some (neg, ip, [])
  | c :: fp =>
    if c = Char.ofNat 46 ∧ fp.all Char.isDigit ∧ (ip ≠ [] ∨ fp ≠ []) then
      some (neg, ip, fp)
    else none

/-- The rational value of a parsed float literal. -/
def ratOfParts : Bool × List Char × List Char → ℚ
  | (neg, ip, fp) =>
    (if neg then -1 else 1) *
      ((natOfDigits ip : ℚ) + (natOfDigits fp : ℚ) / 10 ^ fp.length)

def pyFloat (s : String) : Option ℚ := (pyFloatParse s).map ratOfParts

/-- `"".join(c for c in s if c.isdigit() or c == ".")`. -/
def filter_digits_dot (s : String) : String :=
  String.mk (s.data.filter (fun c => c.isDigit || c = Char.ofNat 46))

/-- The canonical intermediate record one adapter branch produces. -/
structure Draft where
  origin : String
  destination : String
  aircraft : String
  amenities : List String
  base_price : ℚ
deriving DecidableEq, Repr

/-- A luxaviation CSV row (the fields the branch reads). -/
structure LuxRow where
  route : String
  aircraft : String
  maxpax : String
  wifi : String
  pets : String
  beds : String
  price : String
deriving DecidableEq, Repr

/-- The luxaviation price `try` block (lines 347-356): `none` models a
raised `ValueError` (caught at line 357, which substitutes 4000). -/
def lux_price_try (price_str : String) : Option ℚ :=
  if substrS "EUR" price_str then
    pyFloat (replaceStr (strip ((pySplit price_str "EUR").getD 1 "")) "," "")
  else
    let ps := filter_digits_dot price_str
    if ps ≠ "" then pyFloat ps else some 4000

def lux_price (price_str : String) : ℚ := (lux_price_try price_str).getD 4000

def lux_amenities (row : LuxRow) : List String :=
  ["Ground Transportation", "Catering", "Max Passengers: " ++ row.maxpax]
  ++ (if pyLower row.wifi = "yes" then ["WiFi"] else [])
  ++ (if pyLower row.pets = "yes" then ["Pet Friendly"]
      else if pyLower row.pets = "no" then ["No Pets"] else [])
  ++ (if pyLower row.beds = "yes" then ["Beds"] else [])

/-- The luxaviation branch (lines 324-363): a route without the
`" Airport "` separator raises `IndexError`, caught by the branch handler
(`continue`), i.e. the row is skipped; a price failure is not. -/
def lux_draft (row : LuxRow) : Option Draft :=
  match pySplit row.route " Airport " with
  | p0 :: p1 :: _ =>
    some { origin := clean_city_name (strip p0)
           destination := clean_city_name (strip p1)
           aircraft := row.aircraft
           amenities := lux_amenities row
           base_price := lux_price row.price }
  | _ => none

structure CatchRow where
  departure : String
  arrival : String
  maxpax : String
  price : String
deriving DecidableEq, Repr

/-- The catchajet price `try` body before the plausibility check
(lines 376-377). -/
def catchajet_price_try (p : String) : Option ℚ :=
  pyFloat (replaceStr (strip (replaceStr p "Book the entire jet for €" "")) "," "")

/-- Lines 375-381: parse, replace suspiciously low (< 500) values by 4000,
and replace a parse failure by 4000. -/
def catchajet_price (p : String) : ℚ :=
  match catchajet_price_try p with
  | some v => if v < 500 then 4000 else v
  | none => 4000

/-- The catchajet branch (lines 365-381): no fallible indexing, so every
(typed) row yields a draft. -/
def catchajet_draft (row : CatchRow) : Draft :=
  { origin := clean_city_name row.departure
    destination := clean_city_name row.arrival
    aircraft := "Citation CJ2"
    amenities := ["Ground Transportation", "Catering",
      "Max Passengers: " ++ row.maxpax]
    base_price := catchajet_price row.price }

structure MiraiRow where
  route : String
  maxpax : String
  price : String
deriving DecidableEq, Repr

/-- Lines 394-395: `row["price"].split(" ")[2]` then digit filtering then
`float(·)` — with no surrounding `try`, so `none` propagates to the per-row
handler and the row is skipped. -/
def mirai_base_price (p : String) : Option ℚ :=
  match (pySplit p " ").get? 2 with
  | none => none
  | some t => pyFloat (filter_digits_dot t)

/-- The mirai branch (lines 383-395). -/
def mirai_draft (row : MiraiRow) : Option Draft :=
  match pySplit row.route " — " with
  | p0 :: p1 :: _ =>
    match mirai_base_price row.price with
    | some bp =>
      some { origin := clean_city_name (strip p0)
             destination := clean_city_name (strip p1)
             aircraft := "Cessna Citation CJ2"
             amenities := ["Ground Transportation", "Catering",
               "Max Passengers: " ++ ((pySplit row.maxpax " ").getLastD "")]
             base_price := bp }
    | none => none
  | _ => none

structure SovRow where
  flightinfo : String
deriving DecidableEq, Repr

/-- Line 399: tab-split, drop whitespace-only parts, clean each part. -/
def sovereign_parts (fi : String) : List String :=
  (pySplit fi "\t").filterMap
    (fun p => if strip p = "" then none else some (clean_city_name (strip p)))

/-- Lines 409-413: first part containing `£` (default `"£4000"`), strip the
currency sign and commas, convert at 1.15; a float failure yields 4000
(without the 1.15 factor). -/
def sovereign_price (parts : List String) : ℚ :=
  let pp := (parts.find? (fun p => substrS "£" p)).getD "£4000"
  match pyFloat (String.mk (pp.data.filter
      (fun c => c ≠ Char.ofNat 163 ∧ c ≠ Char.ofNat 44))) with
  | some v => v * (115 / 100)
  | none => 4000

/-- The sovereign branch (lines 397-417): fewer than two usable parts raise
`IndexError` at the destination lookup, skipping the row. -/
def sovereign_draft (row : SovRow) : Option Draft :=
  let parts := sovereign_parts row.flightinfo
  match (if parts.length > 2 then parts.get? 2 else parts.get? 1) with
  | none => none
  | some dest =>
    some { origin := "London"
           destination := dest
           aircraft := if parts.length > 3 then parts.getLastD "Citation Jet"
             else "Citation Jet"
           amenities := ["Ground Transportation", "Catering", "Max Passengers: 6"]
           base_price := sovereign_price parts }

/-! ## The tail of `process_flights_data` (lines 463-560)

What happens after all sources are aggregated: sort by parsed date, count
diagnostics, filter, serialize.  The crucial detail (lines 495-559): the
`flyPrivatePrice >= 100` filter at line 523 rebinds `all_flights`, but the
serialized collection at line 559 is `sorted_flights`, computed at line 495
from the unfiltered list; nothing reads `all_flights` after line 523. -/

/-- One serialized flight record (lines 432-450). -/
structure Flight where
  id : ℕ
  thumbnail : String
  origin : String
  destination : String
  originLat : Option ℚ
  originLon : Option ℚ
  destLat : Option ℚ
  destLon : Option ℚ
  charterPrice : ℤ
  flyPrivatePrice : ℤ
  date : String
  duration : String
  departureTime : String
  arrivalTime : String
  aircraft : String
  amenities : List String
  operatedBy : String
deriving DecidableEq, Repr

/-- `_sort_date` (lines 482-493): `strptime(date, "%B %d")`, year 2024 for
December and 2025 otherwise, `datetime(2024, 12, 25)` on any failure. -/
def flight_sort_date (date : String) : ℕ × ℕ × ℕ :=
  match parse_Bd date with
  | some (_, m, d) =>
    let y : ℕ := if m = 12 then 2024 else 2025
    if d ≤ days_in_month y m then (y, m, d) else (2024, 12, 25)
  | none => (2024, 12, 25)

/-- Strict `datetime` comparison on (year, month, day). -/
def date_lt (a b : ℕ × ℕ × ℕ) : Bool :=
  a.1 < b.1 ∨ (a.1 = b.1 ∧ (a.2.1 < b.2.1 ∨ (a.2.1 = b.2.1 ∧ a.2.2 < b.2.2)))

/-- Stable insertion for the date sort: the inserted element passes exactly
the strictly smaller keys, so it lands before every equal key. -/
def insertByDate (f : Flight) : List Flight → List Flight
  | [] => [f]
  | g :: gs =>
    if date_lt (flight_sort_date g.date) (flight_sort_date f.date) then
      g :: insertByDate f gs
    else f :: g :: gs

/-- `sorted(all_flights, key=lambda x: x["_sort_date"])`: Python's sort is
stable, and a stable sort by a fixed key is unique, so insertion sort gives
the same list. -/
def pySortFlights (l : List Flight) : List Flight := l.foldr insertByDate []

/-- Lines 495-559: the final collection handed to the serializer.  The
filtered list `all_flights2` is dead — exactly as in the source, where the
rebound `all_flights` of line 523 is never read again. -/
def process_flights_tail (all_flights : List Flight) : List Flight :=
  let sorted_flights := pySortFlights all_flights
  let all_flights2 := all_flights.filter (fun f => 100 ≤ f.flyPrivatePrice)
  sorted_flights

/-! ## Concrete inputs used by counterexamples and witnesses -/

/-- Two reference rows that normalize to the same city with different
coordinates and codes. -/
def niceRow1 : AirportRow := ⟨some "Nice", some "AAA", some "III", some 1, some 2⟩

def niceRow2 : AirportRow := ⟨some "Nice", some "BBB", some "JJJ", some 3, some 4⟩

/-- A flight whose `flyPrivatePrice` is below the 100 threshold. -/
def lowPriceFlight : Flight :=
  { id := 1, thumbnail := "/api/placeholder/400/320", origin := "Paris",
    destination := "Nice", originLat := some 1, originLon := some 2,
    destLat := some 3, destLon := some 4, charterPrice := 90,
    flyPrivatePrice := 50, date := "June 15", duration := "1h 00m",
    departureTime := "10:00", arrivalTime := "11:00",
    aircraft := "Citation CJ2", amenities := ["Catering"],
    operatedBy := "catchajet" }

/-- A flight with fully unresolved coordinate pairs. -/
def nullCoordFlight : Flight :=
  { id := 2, thumbnail := "/api/placeholder/400/320", origin := "Atlantis",
    destination := "Nice", originLat := none, originLon := none,
    destLat := none, destLon := none, charterPrice := 9000,
    flyPrivatePrice := 5000, date := "June 16", duration := "1h 30m",
    departureTime := "10:00", arrivalTime := "11:30",
    aircraft := "Citation CJ2", amenities := ["Catering"],
    operatedBy := "mirai" }

/-- A gazetteer with two keys that both substring-match "nice": tier 2 must
win on the exact key even though tier 3 would match the other. -/
def twoKeyDict : AirportsDict :=
  ⟨[], [], [], [], [("nice", (1, 2)), ("nice city", (3, 4))]⟩

/-- A mirai row whose route parses but whose price text has no third
space-separated token, so the price extraction raises. -/
def miraiBadPriceRow : MiraiRow := ⟨"A — B", "x 4", "confidential"⟩

/-!
# Theorems

Helper lemmas first, then one theorem (plus witness / counterexample where
required) per claim.
-/

/-! ## Association-list dictionary lemmas -/

theorem alookup_dictInsert {β : Type} (k i : String) (v : β) (l : List (String × β)) :
    alookup k (dictInsert i v l) = if k = i then some v else alookup k l := by
  induction l with
  | nil => simp [dictInsert, alookup]
  | cons p rest ih =>
    obtain ⟨k2, v2⟩ := p
    by_cases hik : i = k2
    · subst hik
      by_cases hk : k = i <;> simp [dictInsert, alookup, hk]
    · by_cases hk : k = k2
      · subst hk
        simp [dictInsert, alookup, hik, Ne.symm hik]
      · simp [dictInsert, alookup, hik, hk, ih]

theorem alookup_dictInsert_self {β : Type} (k : String) (v : β)
    (l : List (String × β)) : alookup k (dictInsert k v l) = some v := by
  simp [alookup_dictInsert]

theorem alookup_dictInsert_ne {β : Type} {k i : String} (h : k ≠ i) (v : β)
    (l : List (String × β)) : alookup k (dictInsert i v l) = alookup k l := by
  simp [alookup_dictInsert, h]

/-! ## Stable-sort lemmas for the pipeline tail -/

theorem insertByDate_perm (f : Flight) (l : List Flight) :
    List.Perm (insertByDate f l) (f :: l) := by
  induction l with
  | nil => simp [insertByDate]
  | cons g gs ih =>
    unfold insertByDate
    split
    · exact ((ih.cons g).trans (List.Perm.swap f g gs)).symm.symm
    · exact List.Perm.refl _

theorem pySortFlights_perm (l : List Flight) : List.Perm (pySortFlights l) l := by
  induction l with
  | nil => simp [pySortFlights]
  | cons f fs ih =>
    have h1 : pySortFlights (f :: fs) = insertByDate f (pySortFlights fs) := rfl
    rw [h1]
    exact (insertByDate_perm f (pySortFlights fs)).trans (ih.cons f)

theorem process_flights_tail_perm (l : List Flight) :
    List.Perm (process_flights_tail l) l := pySortFlights_perm l

/-! ## C1 -/

/-- C1: the claim states that every record with `flyPrivatePrice < 100` is
discarded before the final collection is handed to the serializer.  The code
intends this (line 522's comment and line 523's filter) but filters a dead
variable: the serialized `sorted_flights` is computed at line 495, before
the filter, and the rebound `all_flights` is never read again.  A
50-priced record therefore reaches the serializer: the code contradicts its
own stated intent. -/
theorem C1_filter_dead_code_bug :
    lowPriceFlight.flyPrivatePrice < 100 ∧
    lowPriceFlight ∈ process_flights_tail [lowPriceFlight] := by
  constructor
  · decide
  · simp [process_flights_tail, pySortFlights, insertByDate]

/-! ## C2 -/

/-- C2 counterexample: a record with both coordinate pairs fully unresolved
(`None`) is *not* discarded — it appears in the collection handed to the
serializer (lines 513-520 only print a warning; no coordinate filter
exists). -/
theorem C2_counterexample :
    nullCoordFlight.originLat = none ∧ nullCoordFlight.originLon = none ∧
    nullCoordFlight.destLat = none ∧ nullCoordFlight.destLon = none ∧
    nullCoordFlight ∈ process_flights_tail [nullCoordFlight] := by
  refine ⟨rfl, rfl, rfl, rfl, ?_⟩
  simp [process_flights_tail, pySortFlights, insertByDate]

/-- C2 (amended): the orchestrator discards nothing at all on coordinates:
every aggregated record — in particular every record whose coordinate pairs
are unresolved — appears in the final output collection; missing coordinates
only produce a printed warning. -/
theorem C2_no_coordinate_filter (fs : List Flight) (f : Flight) (h : f ∈ fs) :
    f ∈ process_flights_tail fs :=
  (process_flights_tail_perm fs).mem_iff.mpr h

/-- Witness for `C2_no_coordinate_filter` at a concrete record with null
coordinates. -/
theorem C2_no_coordinate_filter_witness :
    nullCoordFlight ∈ process_flights_tail [lowPriceFlight, nullCoordFlight] :=
  C2_no_coordinate_filter [lowPriceFlight, nullCoordFlight] nullCoordFlight
    (by simp)

/-! ## C6 -/

/-- C6: for every positive base price and every possible random choice, the
charter price is `ceil(basePrice * m)` for some `m` in the fixed multiplier
set `{2.0, 2.1, ..., 3.0}`, and the flyPrivate price is
`ceil(basePrice * 1.2)` exactly. -/
theorem C6_price_structure (base : ℚ) (hbase : 0 < base) (choice : Fin 11) :
    ∃ m ∈ multipliers,
      (calculate_prices base choice).1 = ⌈base * m⌉ ∧
      (calculate_prices base choice).2 = ⌈base * (12 / 10 : ℚ)⌉ := by
  refine ⟨multipliers.getD choice.val 2, ?_, rfl, rfl⟩
  fin_cases choice <;> simp [multipliers]

/-- Witness for `C6_price_structure` at base price 3500. -/
theorem C6_price_structure_witness :
    ∃ m ∈ multipliers,
      (calculate_prices 3500 2).1 = ⌈(3500 : ℚ) * m⌉ ∧
      (calculate_prices 3500 2).2 = ⌈(3500 : ℚ) * (12 / 10 : ℚ)⌉ :=
  C6_price_structure 3500 (by norm_num) 2

/-! ## C8 -/

/-- C8: whenever the cleaned, normalized input name equals a
`cities_to_coords` key (i.e. the tier-2 exact scan hits), the resolver
returns that key's coordinate pair — for *every* gazetteer, including ones
where the later, more permissive tiers would also match, which is exactly
"never falls through to tier 3+". -/
theorem C8_exact_tier_wins (location : String) (d : AirportsDict) (c : ℚ × ℚ)
    (hne : location ≠ "")
    (hhit : tier_exact (pyLower (resolver_clean location)) d.cities_to_coords =
      some c) :
    get_airport_coordinates location d = some c := by
  unfold get_airport_coordinates resolve_body
  rw [if_neg hne]
  simp only [hhit]

/-- Witness for `C8_exact_tier_wins`: "Nice" cleans to the exact key
`"nice"` of `twoKeyDict` and resolves to its pair `(1, 2)`, although the
second key `"nice city"` would also match at tier 3. -/
theorem C8_exact_tier_wins_witness :
    substrS "nice" "nice city" = true ∧
    get_airport_coordinates "Nice" twoKeyDict = some (1, 2) :=
  ⟨by decide, C8_exact_tier_wins "Nice" twoKeyDict (1, 2) (by decide) (by decide)⟩

/-! ## C9 -/

/-- C9: the resolver never lets an exception escape: the empty (falsy) input
returns nulls at once, any exception inside the `try` body (modelled by
`Except.error`; concretely the `split()[0]` of line 232 on a name with no
words) is mapped to nulls by the outer handler, and every result is either
nulls or a coordinate pair. -/
theorem C9_never_raises :
    (∀ d : AirportsDict, get_airport_coordinates "" d = none) ∧
    (∀ (loc : String) (d : AirportsDict) (e : Unit),
      resolve_body loc d = Except.error e → get_airport_coordinates loc d = none) ∧
    (∀ (loc : String) (d : AirportsDict),
      get_airport_coordinates loc d = none ∨
        ∃ c, get_airport_coordinates loc d = some c) := by
  refine ⟨fun d => rfl, fun loc d e he => ?_, fun loc d => ?_⟩
  · unfold get_airport_coordinates
    rw [he]
  · cases h : get_airport_coordinates loc d with
    | none => exact Or.inl rfl
    | some c => exact Or.inr ⟨c, rfl⟩

/-- Witness for `C9_never_raises`: the malformed input "Airport" cleans to an
empty name, whose word list is empty, so the body raises (`IndexError`) and
the resolver still returns nulls. -/
theorem C9_never_raises_witness :
    resolve_body "Airport" emptyAirportsDict = Except.error () ∧
    get_airport_coordinates "Airport" emptyAirportsDict = none :=
  ⟨rfl, C9_never_raises.2.1 "Airport" emptyAirportsDict () rfl⟩

/-! ## C10 -/

/-- C10 (implicit claim): when all four coordinates are present but any one
equals exactly 0, the presence check `all([lat1, lon1, lat2, lon2])` treats
the 0.0 as missing (Python falsiness) and the function returns the default
`"1h 30m"` instead of the haversine duration. -/
theorem C10_zero_coordinate (a b c d : Option ℝ)
    (ha : a.isSome) (hb : b.isSome) (hc : c.isSome) (hd : d.isSome)
    (hz : a = some 0 ∨ b = some 0 ∨ c = some 0 ∨ d = some 0) :
    estimate_duration a b c d = "1h 30m" := by
  unfold estimate_duration
  rw [if_neg]
  rintro ⟨h1, h2, h3, h4⟩
  rcases hz with rfl | rfl | rfl | rfl
  · exact h1 rfl
  · exact h2 rfl
  · exact h3 rfl
  · exact h4 rfl

/-- Witness for `C10_zero_coordinate`: a point on the equator. -/
theorem C10_zero_coordinate_witness :
    estimate_duration (some 0) (some 10) (some 20) (some 30) = "1h 30m" :=
  C10_zero_coordinate (some 0) (some 10) (some 20) (some 30)
    rfl rfl rfl rfl (Or.inl rfl)

/-! ## C5 -/

/-- C5 counterexample: `(0, 10)` and `(0, 10)` are identical, *resolved*
(non-null) coordinates, yet `estimate_duration` returns `"1h 30m"`, not the
20-minute minimum — the zero latitude fails the truthiness guard. -/
theorem C5_counterexample :
    (Option.some (0 : ℝ)).isSome = true ∧
    estimate_duration (some 0) (some 10) (some 0) (some 10) = "1h 30m" ∧
    ("1h 30m" : String) ≠ "0h 20m" := by
  refine ⟨rfl, ?_, by decide⟩
  unfold estimate_duration
  rw [if_neg]
  rintro ⟨h1, _, _, _⟩
  exact h1 rfl

/-- C5 (amended): identical resolved coordinates yield the 20-minute minimum
`"0h 20m"` provided all four values are non-zero (a zero coordinate instead
trips the truthiness guard, see `C10_zero_coordinate`), and whenever either
pair is unresolved (null) the result is the literal `"1h 30m"`. -/
theorem C5_duration_amended :
    (∀ la lo : ℝ, la ≠ 0 → lo ≠ 0 →
      estimate_duration (some la) (some lo) (some la) (some lo) = "0h 20m") ∧
    (∀ a b c d : Option ℝ, a = none ∨ b = none ∨ c = none ∨ d = none →
      estimate_duration a b c d = "1h 30m") := by
  constructor
  · intro la lo hla hlo
    unfold estimate_duration
    rw [if_pos ⟨hla, hlo, hla, hlo⟩]
    have h20 : haversine_total_minutes ((some la).getD 0) ((some lo).getD 0)
        ((some la).getD 0) ((some lo).getD 0) = 20 := by
      unfold haversine_total_minutes
      simp only [Option.getD_some, sub_self, zero_div, Real.sin_zero,
        ne_eq, OfNat.ofNat_ne_zero, not_false_eq_true, zero_pow, mul_zero,
        add_zero, zero_add, Real.sqrt_zero, Real.arcsin_zero, zero_mul]
      unfold pyIntR
      rw [if_pos (by norm_num)]
      norm_num
    rw [h20]
    rfl
  · intro a b c d h
    unfold estimate_duration
    rw [if_neg]
    rintro ⟨h1, h2, h3, h4⟩
    rcases h with rfl | rfl | rfl | rfl
    · exact h1
    · exact h2
    · exact h3
    · exact h4

/-- Witness for `C5_duration_amended`. -/
theorem C5_duration_amended_witness :
    estimate_duration (some 43) (some 7) (some 43) (some 7) = "0h 20m" ∧
    estimate_duration none (some 7) (some 43) (some 7) = "1h 30m" :=
  ⟨C5_duration_amended.1 43 7 (by norm_num) (by norm_num),
   C5_duration_amended.2 none (some 7) (some 43) (some 7) (Or.inl rfl)⟩

/-! ## C7: parser postcondition lemmas -/

theorem numField_bounds {lo hi v : ℕ} {l : List Char}
    (h : numField lo hi l = some v) : lo ≤ v ∧ v ≤ hi := by
  simp only [numField] at h
  split_ifs at h with h1 h2
  cases h; exact h2

theorem parse_Ymd_shape {s : String} {y m d : ℕ}
    (h : parse_Ymd s = some (y, m, d)) :
    md_ok m d ∧ d ≤ days_in_month y m := by
  simp only [parse_Ymd] at h
  split at h
  next ys ms ds heq =>
    split at h
    next y1 m1 d1 hy hm hd =>
      split_ifs at h with hle
      cases h
      exact ⟨⟨(numField_bounds hm).1, (numField_bounds hm).2,
        (numField_bounds hd).1, (numField_bounds hd).2⟩, hle⟩
    next => simp at h
  next => simp at h

theorem matchNameFrom_bounds :
    ∀ (names : List String) (i : ℕ) (l : List Char) (m : ℕ) (rest : List Char),
      matchNameFrom names i l = some (m, rest) → i ≤ m ∧ m < i + names.length := by
  intro names
  induction names with
  | nil => intro i l m rest h; simp [matchNameFrom] at h
  | cons n ns ih =>
    intro i l m rest h
    simp only [matchNameFrom] at h
    split_ifs at h with hp
    · cases h; simp
    · have := ih (i + 1) l m rest h
      simp only [List.length_cons]
      omega

theorem matchAbbrFull_bounds {l : List Char} {m : ℕ}
    (h : matchAbbrFull l = some m) : 1 ≤ m ∧ m ≤ 12 := by
  unfold matchAbbrFull at h
  cases hm : matchNameFrom monthAbbr3 1 l with
  | none => rw [hm] at h; simp at h
  | some pr =>
    obtain ⟨i, rest⟩ := pr
    rw [hm] at h
    cases rest with
    | nil =>
      simp only [Option.some.injEq] at h
      have hb := matchNameFrom_bounds monthAbbr3 1 l i [] hm
      simp only [monthAbbr3, List.length_cons, List.length_nil] at hb
      omega
    | cons a t => simp at h

theorem parse_Bd_shape {s : String} {y m d : ℕ}
    (h : parse_Bd s = some (y, m, d)) : md_ok m d := by
  simp only [parse_Bd] at h
  split at h
  next => simp at h
  next m1 rest hm =>
    split_ifs at h with hws
    split at h
    next => simp at h
    next d1 hd =>
      split_ifs at h with hle
      have hmb := matchNameFrom_bounds monthNames 1 s.data m1 rest hm
      simp only [monthNames, List.length_cons, List.length_nil] at hmb
      have hdb := numField_bounds hd
      simp only [Option.some.injEq, Prod.mk.injEq] at h
      unfold md_ok
      omega

theorem afterDay_shape {d0 : ℕ} {rest : List Char} {y m d : ℕ}
    (h : afterDay d0 rest = some (y, m, d)) : 1 ≤ m ∧ m ≤ 12 ∧ d = d0 := by
  simp only [afterDay] at h
  split_ifs at h with hws
  split at h
  next => simp at h
  next m1 hm =>
    split_ifs at h with hle
    cases h
    exact ⟨(matchAbbrFull_bounds hm).1, (matchAbbrFull_bounds hm).2, rfl⟩

theorem parse_dB_shape {s : String} {y m d : ℕ}
    (h : parse_dB s = some (y, m, d)) : md_ok m d := by
  simp only [parse_dB] at h
  split at h
  next r heq =>
    split at heq
    next c1 c2 rest heq2 =>
      split at heq
      next d1 hd1 =>
        cases h
        obtain ⟨hm1, hm2, rfl⟩ := afterDay_shape heq
        exact ⟨hm1, hm2, (numField_bounds hd1).1, (numField_bounds hd1).2⟩
      next => simp at heq
    next heq2 => simp at heq
  next heq =>
    split at h
    next c1 rest heq2 =>
      split at h
      next d1 hd1 =>
        obtain ⟨hm1, hm2, rfl⟩ := afterDay_shape h
        have hb := numField_bounds hd1
        exact ⟨hm1, hm2, hb.1, by omega⟩
      next => simp at h
    next heq2 => simp at h

theorem parse_dmY_shape {s : String} {y m d : ℕ}
    (h : parse_dmY s = some (y, m, d)) : md_ok m d := by
  simp only [parse_dmY] at h
  split at h
  next ds ms ys heq =>
    split at h
    next d1 m1 y1 hd hm hy =>
      split_ifs at h with hle
      cases h
      exact ⟨(numField_bounds hm).1, (numField_bounds hm).2,
        (numField_bounds hd).1, (numField_bounds hd).2⟩
    next => simp at h
  next => simp at h

theorem parse_dm_shape {s : String} {y m d : ℕ}
    (h : parse_dm s = some (y, m, d)) : md_ok m d := by
  simp only [parse_dm] at h
  split at h
  next ds ms heq =>
    split at h
    next d1 m1 hd hm =>
      split_ifs at h with hle
      cases h
      exact ⟨(numField_bounds hm).1, (numField_bounds hm).2,
        (numField_bounds hd).1, (numField_bounds hd).2⟩
    next => simp at h
  next => simp at h

theorem format_step_out {y m d : ℕ} {out : String}
    (h : format_step (y, m, d) = some out) :
    out = month_name m ++ " " ++ pad2 d := by
  simp only [format_step] at h
  split_ifs at h <;> simp_all

theorem format_step_some {y m d : ℕ}
    (hd : d ≤ days_in_month (if m = 12 then 2024 else 2025) m) :
    format_step (y, m, d) = some (month_name m ++ " " ++ pad2 d) := by
  simp only [format_step]
  rw [if_pos hd]

theorem bind_step_shape {p : String → Option (ℕ × ℕ × ℕ)}
    (hp : ∀ s y m d, p s = some (y, m, d) → md_ok m d) :
    ∀ s out : String, (p s).bind format_step = some out →
      ∃ m d, md_ok m d ∧ out = month_name m ++ " " ++ pad2 d := by
  intro s out h
  rw [Option.bind_eq_some] at h
  obtain ⟨⟨y, m, d⟩, hpar, hstep⟩ := h
  exact ⟨m, d, hp s y m d hpar, format_step_out hstep⟩

theorem firstSome_forall {P : String → Prop} :
    ∀ opts : List (Option String),
      (∀ o ∈ opts, ∀ out, o = some out → P out) →
      ∀ out, firstSome opts = some out → P out := by
  intro opts
  induction opts with
  | nil => intro _ out h; simp [firstSome] at h
  | cons o rest ih =>
    intro hall out h
    cases o with
    | some s0 =>
      simp only [firstSome, Option.some.injEq] at h
      subst h
      exact hall (some s0) (by simp) s0 rfl
    | none =>
      simp only [firstSome] at h
      exact ih (fun o ho => hall o (by simp [ho])) out h

/-- C7: the fixed worked examples of the spec, the shape invariant "the
output is always a month name and a two-digit day, never a year", and the
first-format-wins rule: a successful `%Y-%m-%d` parse determines the output
(unless it is February 29, which the year replacement rejects), regardless
of what later formats would say. -/
theorem C7_format_date_behavior :
    format_date "2024-12-25" = "December 25" ∧
    format_date "15/06" = "June 15" ∧
    format_date "garbage" = "December 25" ∧
    (∀ s : String, format_date s = "December 25" ∨
      ∃ m d, md_ok m d ∧ format_date s = month_name m ++ " " ++ pad2 d) ∧
    (∀ (s : String) (y m d : ℕ), parse_Ymd (strip s) = some (y, m, d) →
      ¬(m = 2 ∧ d = 29) → format_date s = month_name m ++ " " ++ pad2 d) := by
  refine ⟨by decide, by decide, by decide, ?_, ?_⟩
  · intro s
    have hdef : format_date s =
        match firstSome (dateFormats.map fun p => (p (strip s)).bind format_step) with
        | some out => out
        | none => "December 25" := rfl
    cases hfs : firstSome (dateFormats.map fun p => (p (strip s)).bind format_step) with
    | none =>
      left
      rw [hdef, hfs]
    | some out =>
      right
      have hP : ∀ o ∈ dateFormats.map fun p => (p (strip s)).bind format_step,
          ∀ o2, o = some o2 →
          ∃ m d, md_ok m d ∧ o2 = month_name m ++ " " ++ pad2 d := by
        intro o ho o2 heq
        simp only [dateFormats, List.map_cons, List.map_nil, List.mem_cons,
          List.not_mem_nil, or_false] at ho
        rcases ho with rfl | rfl | rfl | rfl | rfl
        · exact bind_step_shape (fun s y m d h => (parse_Ymd_shape h).1) _ o2 heq
        · exact bind_step_shape (fun s y m d h => parse_Bd_shape h) _ o2 heq
        · exact bind_step_shape (fun s y m d h => parse_dB_shape h) _ o2 heq
        · exact bind_step_shape (fun s y m d h => parse_dmY_shape h) _ o2 heq
        · exact bind_step_shape (fun s y m d h => parse_dm_shape h) _ o2 heq
      obtain ⟨m, d, hmd, hout⟩ := firstSome_forall _ hP out hfs
      refine ⟨m, d, hmd, ?_⟩
      rw [hdef, hfs]
      exact hout
  · intro s y m d hparse hnf
    have hb := parse_Ymd_shape hparse
    have hstep : format_step (y, m, d) =
        some (month_name m ++ " " ++ pad2 d) := by
      apply format_step_some
      by_cases hm2 : m = 2
      · subst hm2
        rw [if_neg (by norm_num : (2 : ℕ) ≠ 12)]
        have h28 : days_in_month 2025 2 = 28 := rfl
        rw [h28]
        have hd29 : d ≤ 29 := by
          have h2 := hb.2
          unfold days_in_month at h2
          rw [if_pos rfl] at h2
          split at h2 <;> omega
        have hne : d ≠ 29 := fun hh => hnf ⟨rfl, hh⟩
        omega
      · have hsame : days_in_month (if m = 12 then 2024 else 2025) m =
            days_in_month y m := by
          unfold days_in_month
          rw [if_neg hm2, if_neg hm2]
        rw [hsame]
        exact hb.2
    have hdef : format_date s =
        match firstSome (dateFormats.map fun p => (p (strip s)).bind format_step) with
        | some out => out
        | none => "December 25" := rfl
    rw [hdef]
    simp only [dateFormats, List.map_cons, List.map_nil, hparse,
      Option.some_bind, hstep, firstSome]

/-- Witness for `C7_format_date_behavior` (the first-format-wins clause at a
concrete date). -/
theorem C7_format_date_behavior_witness :
    parse_Ymd (strip "2024-03-05") = some (2024, 3, 5) ∧
    format_date "2024-03-05" = month_name 3 ++ " " ++ pad2 5 :=
  ⟨rfl, C7_format_date_behavior.2.2.2.2 "2024-03-05" 2024 3 5 rfl (by omega)⟩

/-- Evaluation helper: the parsed digits `4000` denote the rational 4000. -/
theorem ratOfParts_4000 :
    ratOfParts (false, [Char.ofNat 52, Char.ofNat 48, Char.ofNat 48, Char.ofNat 48], []) = 4000 := by
  have h : natOfDigits [Char.ofNat 52, Char.ofNat 48, Char.ofNat 48, Char.ofNat 48] = 4000 := by
    decide
  simp [ratOfParts, h, natOfDigits]

/-! ## C4 -/

/-- C4 counterexample: the claim says a price-parse failure is always a
field-level default (4000) and never a skipped row.  In the mirai branch the
price extraction (lines 394-395) has no try/except of its own, so a mirai
row whose price text lacks a third space-separated token is skipped
entirely; and in the sovereign branch a missing `£` amount yields the
placeholder `"£4000"` converted at 1.15, i.e. 4600, not 4000. -/
theorem C4_counterexample :
    mirai_base_price "confidential" = none ∧
    (pySplit "A — B" " — ").length = 2 ∧
    mirai_draft miraiBadPriceRow = none ∧
    sovereign_price ["London", "Paris"] = 4600 := by
  refine ⟨rfl, rfl, rfl, ?_⟩
  unfold sovereign_price
  have hf : (List.find? (fun p => substrS "£" p) ["London", "Paris"]) = none := by
    decide
  rw [hf]
  have hp : pyFloatParse (String.mk ((Option.getD none "£4000").data.filter
      (fun c => c ≠ Char.ofNat 163 ∧ c ≠ Char.ofNat 44))) =
      some (false, [Char.ofNat 52, Char.ofNat 48, Char.ofNat 48, Char.ofNat 48], []) := by
    decide
  have hval : pyFloat (String.mk ((Option.getD none "£4000").data.filter
      (fun c => c ≠ Char.ofNat 163 ∧ c ≠ Char.ofNat 44))) = some 4000 := by
    unfold pyFloat
    rw [hp]
    show some _ = _
    rw [ratOfParts_4000]
  simp only [hval]
  norm_num

/-- C4 (amended): the luxaviation, catchajet and sovereign branches replace
an unparseable price by 4000 and still produce their record; catchajet
additionally replaces parsed values below 500 by 4000; sovereign yields 4600
(placeholder £4000 at the 1.15 conversion) when no `£` amount is present;
the mirai branch alone has no price fallback — a mirai row whose price does
not parse is skipped. -/
theorem C4_price_fallbacks :
    (∀ p : String, lux_price_try p = none → lux_price p = 4000) ∧
    (∀ (row : LuxRow) (p0 p1 : String) (rest : List String),
      pySplit row.route " Airport " = p0 :: p1 :: rest →
      lux_draft row = some ⟨clean_city_name (strip p0), clean_city_name (strip p1),
        row.aircraft, lux_amenities row, lux_price row.price⟩) ∧
    (∀ row : CatchRow, (catchajet_draft row).base_price = catchajet_price row.price) ∧
    (∀ p : String, catchajet_price_try p = none → catchajet_price p = 4000) ∧
    (∀ (p : String) (v : ℚ), catchajet_price_try p = some v → v < 500 →
      catchajet_price p = 4000) ∧
    (∀ (parts : List String) (pp : String),
      parts.find? (fun q => substrS "£" q) = some pp →
      pyFloat (String.mk (pp.data.filter
        (fun c => c ≠ Char.ofNat 163 ∧ c ≠ Char.ofNat 44))) = none →
      sovereign_price parts = 4000) ∧
    (∀ parts : List String, parts.find? (fun q => substrS "£" q) = none →
      sovereign_price parts = 4600) ∧
    (∀ row : MiraiRow, mirai_base_price row.price = none → mirai_draft row = none) := by
  refine ⟨?_, ?_, ?_, ?_, ?_, ?_, ?_, ?_⟩
  · intro p h
    unfold lux_price
    rw [h]
    rfl
  · intro row p0 p1 rest h
    unfold lux_draft
    rw [h]
  · intro row
    rfl
  · intro p h
    unfold catchajet_price
    rw [h]
  · intro p v h hv
    unfold catchajet_price
    rw [h]
    simp only [if_pos hv]
  · intro parts pp h h2
    unfold sovereign_price
    rw [h]
    simp only [Option.getD_some]
    rw [h2]
  · intro parts h
    unfold sovereign_price
    rw [h]
    have hp : pyFloatParse (String.mk ((Option.getD none "£4000").data.filter
        (fun c => c ≠ Char.ofNat 163 ∧ c ≠ Char.ofNat 44))) =
        some (false, [Char.ofNat 52, Char.ofNat 48, Char.ofNat 48, Char.ofNat 48], []) := by
      decide
    have hval : pyFloat (String.mk ((Option.getD none "£4000").data.filter
        (fun c => c ≠ Char.ofNat 163 ∧ c ≠ Char.ofNat 44))) = some 4000 := by
      unfold pyFloat
      rw [hp]
      show some _ = _
      rw [ratOfParts_4000]
    simp only [hval]
    norm_num
  · intro row h
    unfold mirai_draft
    split
    · rw [h]
    · rfl

/-- Witness for `C4_price_fallbacks` at concrete rows and price texts. -/
theorem C4_price_fallbacks_witness :
    lux_price "EUR garbage" = 4000 ∧
    catchajet_price "nonsense" = 4000 ∧
    catchajet_price "Book the entire jet for €120" = 4000 ∧
    sovereign_price ["London", "Nice", "A£4,500"] = 4000 ∧
    mirai_draft ⟨"Milan — Paris", "up to 6", "priceless"⟩ = none := by
  refine ⟨C4_price_fallbacks.1 "EUR garbage" (by decide),
    C4_price_fallbacks.2.2.2.1 "nonsense" (by decide), ?_,
    C4_price_fallbacks.2.2.2.2.2.1 ["London", "Nice", "A£4,500"] "A£4,500"
      (by decide) (by decide),
    C4_price_fallbacks.2.2.2.2.2.2.2 ⟨"Milan — Paris", "up to 6", "priceless"⟩ rfl⟩
  refine C4_price_fallbacks.2.2.2.2.1 "Book the entire jet for €120"
    (ratOfParts (false, [Char.ofNat 49, Char.ofNat 50, Char.ofNat 48], [])) ?_ ?_
  · have hp : pyFloatParse (replaceStr (strip (replaceStr
        "Book the entire jet for €120" "Book the entire jet for €" "")) "," "") =
        some (false, [Char.ofNat 49, Char.ofNat 50, Char.ofNat 48], []) := by
      decide
    simp only [catchajet_price_try, pyFloat, hp]
    rfl
  · have h : natOfDigits [Char.ofNat 49, Char.ofNat 50, Char.ofNat 48] = 120 := by decide
    have h0 : natOfDigits ([] : List Char) = 0 := rfl
    simp only [ratOfParts, h, h0]
    norm_num

/-! ## C3: gazetteer loader lemmas -/

theorem load_row_not_valid {d : AirportsDict} {row : AirportRow}
    (h : ¬ row_valid row) : load_row d row = d := by
  simp [load_row, h]

theorem load_row_cities {d : AirportsDict} {row : AirportRow}
    (h : row_valid row) :
    (load_row d row).cities_to_coords =
      dictInsert (row_norm_city row)
        ((row_data row).latitude, (row_data row).longitude) d.cities_to_coords := by
  simp only [load_row, h, if_true]
  split <;> rfl

theorem load_row_norm_present {d : AirportsDict} {row : AirportRow}
    (hv : row_valid row)
    (hp : (alookup (row_norm_city row) d.by_normalized_city).isSome) :
    (load_row d row).by_normalized_city = d.by_normalized_city ∧
    (load_row d row).by_iata = d.by_iata ∧
    (load_row d row).by_icao = d.by_icao := by
  simp only [load_row, hv, if_true, hp, ite_true]
  refine ⟨?_, ?_, ?_⟩ <;> first | rfl | trivial

theorem load_row_norm_absent {d : AirportsDict} {row : AirportRow}
    (hv : row_valid row)
    (hp : ¬ (alookup (row_norm_city row) d.by_normalized_city).isSome) :
    (load_row d row).by_normalized_city =
      dictInsert (row_norm_city row) (row_data row) d.by_normalized_city ∧
    (load_row d row).by_iata =
      (match (row_data row).iata with
      | some i =>
        if i ≠ "" then dictInsert i (row_data row) d.by_iata else d.by_iata
      | none => d.by_iata) ∧
    (load_row d row).by_icao =
      (match (row_data row).icao with
      | some i =>
        if i ≠ "" then dictInsert i (row_data row) d.by_icao else d.by_icao
      | none => d.by_icao) := by
  simp only [load_row, hv, if_true, hp, ite_false]
  exact ⟨rfl, rfl, rfl⟩

theorem load_fold_by_norm :
    ∀ (rows : List AirportRow) (s : AirportsDict) (nc : String),
      alookup nc (rows.foldl load_row s).by_normalized_city =
        match alookup nc s.by_normalized_city with
        | some v => some v
        | none => first_seen_data nc rows := by
  intro rows
  induction rows with
  | nil =>
    intro s nc
    simp only [List.foldl_nil, first_seen_data]
    cases alookup nc s.by_normalized_city <;> rfl
  | cons r rs ih =>
    intro s nc
    rw [List.foldl_cons, ih]
    by_cases hv : row_valid r
    · by_cases heq : row_norm_city r = nc
      · subst heq
        by_cases hp : (alookup (row_norm_city r) s.by_normalized_city).isSome
        · rw [(load_row_norm_present hv hp).1]
          obtain ⟨v, hvv⟩ := Option.isSome_iff_exists.mp hp
          rw [hvv]
        · rw [(load_row_norm_absent hv hp).1, alookup_dictInsert_self]
          have hnone : alookup (row_norm_city r) s.by_normalized_city = none :=
            Option.not_isSome_iff_eq_none.mp hp
          rw [hnone]
          simp [first_seen_data, hv]
      · have hlook : alookup nc (load_row s r).by_normalized_city =
            alookup nc s.by_normalized_city := by
          by_cases hp : (alookup (row_norm_city r) s.by_normalized_city).isSome
          · rw [(load_row_norm_present hv hp).1]
          · rw [(load_row_norm_absent hv hp).1, alookup_dictInsert_ne (Ne.symm heq)]
        rw [hlook]
        have hfs : first_seen_data nc (r :: rs) = first_seen_data nc rs := by
          simp [first_seen_data, heq]
        rw [hfs]
    · rw [load_row_not_valid hv]
      have hfs : first_seen_data nc (r :: rs) = first_seen_data nc rs := by
        simp [first_seen_data, hv]
      rw [hfs]

theorem load_fold_cities :
    ∀ (rows : List AirportRow) (s : AirportsDict) (nc : String),
      alookup nc (rows.foldl load_row s).cities_to_coords =
        match last_seen_coords nc rows with
        | some c => some c
        | none => alookup nc s.cities_to_coords := by
  intro rows
  induction rows with
  | nil =>
    intro s nc
    simp only [List.foldl_nil, last_seen_coords]
  | cons r rs ih =>
    intro s nc
    rw [List.foldl_cons, ih]
    by_cases hv : row_valid r
    · cases hl : last_seen_coords nc rs with
      | some c => simp [last_seen_coords, hl]
      | none =>
        rw [load_row_cities hv]
        by_cases heq : row_norm_city r = nc
        · subst heq
          rw [alookup_dictInsert_self]
          simp [last_seen_coords, hl, hv, row_data]
        · rw [alookup_dictInsert_ne (Ne.symm heq)]
          simp [last_seen_coords, hl, heq]
    · rw [load_row_not_valid hv]
      cases hl : last_seen_coords nc rs with
      | some c => simp [last_seen_coords, hl]
      | none => simp [last_seen_coords, hl, hv]

/-- Case analysis for a lookup after an insert. -/
theorem alookup_insert_cases {β : Type} {k i : String} {v : β}
    {l : List (String × β)} {a : β}
    (h : alookup k (dictInsert i v l) = some a) :
    (k = i ∧ a = v) ∨ alookup k l = some a := by
  rw [alookup_dictInsert] at h
  split_ifs at h with hk
  · cases h; exact Or.inl ⟨hk, rfl⟩
  · exact Or.inr h

theorem load_row_code_inv {s : AirportsDict} {r : AirportRow}
    (h1 : ∀ k a, alookup k s.by_iata = some a →
      alookup a.normalized_city s.by_normalized_city = some a)
    (h2 : ∀ k a, alookup k s.by_icao = some a →
      alookup a.normalized_city s.by_normalized_city = some a) :
    (∀ k a, alookup k (load_row s r).by_iata = some a →
      alookup a.normalized_city (load_row s r).by_normalized_city = some a) ∧
    (∀ k a, alookup k (load_row s r).by_icao = some a →
      alookup a.normalized_city (load_row s r).by_normalized_city = some a) := by
  by_cases hv : row_valid r
  · by_cases hp : (alookup (row_norm_city r) s.by_normalized_city).isSome
    · obtain ⟨hn, hi, hc⟩ := load_row_norm_present hv hp
      rw [hn, hi, hc]
      exact ⟨h1, h2⟩
    · obtain ⟨hn, hi, hc⟩ := load_row_norm_absent hv hp
      have hnone : alookup (row_norm_city r) s.by_normalized_city = none :=
        Option.not_isSome_iff_eq_none.mp hp
      -- any record already registered keeps its normalized-city entry
      have hold : ∀ a : AirportData,
          alookup a.normalized_city s.by_normalized_city = some a →
          alookup a.normalized_city (load_row s r).by_normalized_city = some a := by
        intro a ha
        rw [hn]
        by_cases hnc : a.normalized_city = row_norm_city r
        · rw [hnc] at ha
          rw [ha] at hnone
          cases hnone
        · rw [alookup_dictInsert_ne hnc]
          exact ha
      have hkey : (row_data r).normalized_city = row_norm_city r := by
        simp only [row_data]
      have hself : alookup (row_data r).normalized_city
          (load_row s r).by_normalized_city = some (row_data r) := by
        rw [hkey, hn]
        exact alookup_dictInsert_self _ _ _
      constructor
      · intro k a hka
        rw [hi] at hka
        cases hiata : (row_data r).iata with
        | none =>
          simp only [hiata] at hka
          exact hold a (h1 k a hka)
        | some i =>
          simp only [hiata] at hka
          by_cases hie : i ≠ ""
          · rw [if_pos hie] at hka
            rcases alookup_insert_cases hka with ⟨hk, rfl⟩ | hka2
            · exact hself
            · exact hold a (h1 k a hka2)
          · rw [if_neg hie] at hka
            exact hold a (h1 k a hka)
      · intro k a hka
        rw [hc] at hka
        cases hicao : (row_data r).icao with
        | none =>
          simp only [hicao] at hka
          exact hold a (h2 k a hka)
        | some i =>
          simp only [hicao] at hka
          by_cases hie : i ≠ ""
          · rw [if_pos hie] at hka
            rcases alookup_insert_cases hka with ⟨hk, rfl⟩ | hka2
            · exact hself
            · exact hold a (h2 k a hka2)
          · rw [if_neg hie] at hka
            exact hold a (h2 k a hka)
  · rw [load_row_not_valid hv]
    exact ⟨h1, h2⟩

theorem load_fold_code_inv :
    ∀ (rows : List AirportRow) (s : AirportsDict),
      (∀ k a, alookup k s.by_iata = some a →
        alookup a.normalized_city s.by_normalized_city = some a) →
      (∀ k a, alookup k s.by_icao = some a →
        alookup a.normalized_city s.by_normalized_city = some a) →
      (∀ k a, alookup k (rows.foldl load_row s).by_iata = some a →
        alookup a.normalized_city (rows.foldl load_row s).by_normalized_city = some a) ∧
      (∀ k a, alookup k (rows.foldl load_row s).by_icao = some a →
        alookup a.normalized_city (rows.foldl load_row s).by_normalized_city = some a) := by
  intro rows
  induction rows with
  | nil => intro s h1 h2; exact ⟨h1, h2⟩
  | cons r rs ih =>
    intro s h1 h2
    rw [List.foldl_cons]
    obtain ⟨h1', h2'⟩ := load_row_code_inv h1 h2
    exact ih (load_row s r) h1' h2'

/-! ## C3 -/

/-- C3 (amended): in the index built by `load_airports_data`, the
`by_normalized_city` entry of every normalized city is the record of the
*first* valid row with that city (first-seen wins, carrying that row's
coordinate pair), and every IATA and ICAO key points to that identical
record — so all three keys share one coordinate pair.  The
`cities_to_coords` map, however, also keyed by normalized city, is
reassigned on every valid row, so it holds the *last* row's pair. -/
theorem C3_gazetteer_amended (rows : List AirportRow) :
    (∀ nc, alookup nc (load_airports_data rows).by_normalized_city =
      first_seen_data nc rows) ∧
    (∀ nc, alookup nc (load_airports_data rows).cities_to_coords =
      last_seen_coords nc rows) ∧
    (∀ k a, alookup k (load_airports_data rows).by_iata = some a →
      alookup a.normalized_city (load_airports_data rows).by_normalized_city = some a) ∧
    (∀ k a, alookup k (load_airports_data rows).by_icao = some a →
      alookup a.normalized_city (load_airports_data rows).by_normalized_city = some a) := by
  refine ⟨?_, ?_, ?_⟩
  · intro nc
    have := load_fold_by_norm rows emptyAirportsDict nc
    simpa [emptyAirportsDict, alookup] using this
  · intro nc
    have := load_fold_cities rows emptyAirportsDict nc
    have h2 : alookup nc emptyAirportsDict.cities_to_coords = none := rfl
    rw [h2] at this
    rw [load_airports_data, this]
    cases last_seen_coords nc rows <;> rfl
  · exact load_fold_code_inv rows emptyAirportsDict
      (by intro k a h; simp [emptyAirportsDict, alookup] at h)
      (by intro k a h; simp [emptyAirportsDict, alookup] at h)

/-- C3 counterexample: two valid rows normalize to the same city "nice"
with different coordinates; the `cities_to_coords` entry for the
normalized-city key holds the *second* row's pair (3, 4), not the first
row's (1, 2) — while `by_normalized_city` still holds the first row's.  So
not every lookup key created for the city points to the first-seen row's
coordinate pair. -/
theorem C3_counterexample :
    row_valid niceRow1 ∧ row_valid niceRow2 ∧
    row_norm_city niceRow1 = "nice" ∧ row_norm_city niceRow2 = "nice" ∧
    alookup "nice" (load_airports_data [niceRow1, niceRow2]).cities_to_coords =
      some (3, 4) ∧
    ((3 : ℚ), (4 : ℚ)) ≠ ((1 : ℚ), (2 : ℚ)) ∧
    (alookup "nice"
        (load_airports_data [niceRow1, niceRow2]).by_normalized_city).map
      (fun a => (a.latitude, a.longitude)) = some (1, 2) := by
  refine ⟨by decide, by decide, by decide, by decide, by decide, by decide, by decide⟩

/-- Witness for `C3_gazetteer_amended` on a concrete two-row load. -/
theorem C3_gazetteer_amended_witness :
    alookup "nice" (load_airports_data [niceRow1, niceRow2]).by_normalized_city =
      first_seen_data "nice" [niceRow1, niceRow2] ∧
    alookup "AAA" (load_airports_data [niceRow1, niceRow2]).by_iata =
      some (row_data niceRow1) ∧
    alookup (row_data niceRow1).normalized_city
      (load_airports_data [niceRow1, niceRow2]).by_normalized_city =
      some (row_data niceRow1) :=
  ⟨(C3_gazetteer_amended [niceRow1, niceRow2]).1 "nice",
   by decide,
   (C3_gazetteer_amended [niceRow1, niceRow2]).2.2.1 "AAA" (row_data niceRow1)
     (by decide)⟩

end Flights
